import Mathlib

/-!
Shallow embedding of the weewx-l7 driver (`bin/user/l7.py`), the driver for
the Raddy L7 LoRa weather station, together with proofs about the claims of
its specification.

Modelling conventions:
* Python numbers (the results of `float(...)` / `int(...)`) are embedded as
  exact rationals `ℚ` / integers `ℤ`.
* Python exceptions are made explicit: fallible code is embedded in
  `Except PyErr`.
* `time.time()` is made explicit: the already-rounded timestamp is passed in
  as a parameter `now : ℤ`.
* A Python dict with string keys is an insertion list `List (String × ℚ)`;
  assignment appends and lookup takes the last binding for the key.
-/

namespace L7

attribute [local semireducible] Rat.add Rat.sub Rat.mul Rat.inv Rat.ofScientific

/-- Kinds of Python exceptions the embedded driver code can raise. -/
inductive PyErr where
  | valueError     -- float()/int() applied to a non-numeric string
  | typeError      -- iterating over None (a group without a 'list' key)
  | indexError     -- item[i] with i out of range
  | unboundLocal   -- reading the local `items` before any assignment
  deriving DecidableEq, Repr

/-- Equality of embedded run results is decidable (used to evaluate the
embedding on concrete documents). -/
instance exceptDecEq {ε α : Type} [DecidableEq ε] [DecidableEq α] :
    DecidableEq (Except ε α)
  | .error e, .error f =>
    if h : e = f then .isTrue (by rw [h])
    else .isFalse (by intro hh; cases hh; exact h rfl)
  | .error _, .ok _ => .isFalse (by intro hh; cases hh)
  | .ok _, .error _ => .isFalse (by intro hh; cases hh)
  | .ok a, .ok b =>
    if h : a = b then .isTrue (by rw [h])
    else .isFalse (by intro hh; cases hh; exact h rfl)

/-- One measurement entry of a sensor group: `[label, value, units, ...]`
(the Rainfall entries carry a fourth element). -/
abbrev Item := List String

/-- A sensor group of the station JSON: the code reads only the keys
`title` (via `sensor.get('title')`) and `list` (via `sensor.get('list')`);
either may be absent, which `dict.get` renders as `None`. -/
structure SensorGroup where
  title : Option String
  list : Option (List Item)
  deriving DecidableEq, Repr

/-- The battery group: the code reads only `battery.get('list', [])`. -/
structure BatteryGroup where
  list : Option (List String)
  deriving DecidableEq, Repr

/-- The parsed station JSON document.  The code reads
`data.get('sensor', [])` and `data.get('battery', {})`. -/
structure RawDoc where
  sensor : Option (List SensorGroup)
  battery : Option BatteryGroup
  deriving DecidableEq, Repr

/-- The numeric value of the `weewx.US` unit-system constant. -/
def weewx_US : ℚ := 1

/-- A weewx loop packet: a Python dict with string keys and numeric values,
kept as an insertion list (assignment appends, lookup takes the last hit). -/
abbrev Packet := List (String × ℚ)

/-- `packet[k] = v`. -/
def dict_set (p : Packet) (k : String) (v : ℚ) : Packet := p ++ [(k, v)]

/-- `packet.get(k)`: the most recent binding of `k`, if any. -/
def dict_get (p : Packet) (k : String) : Option ℚ := p.reverse.lookup k

/-- Scan the leading digits of a character list, returning their value,
how many there were, and the rest of the input. -/
def digitsAux : List Char → ℕ → ℕ → ℕ × ℕ × List Char
  | [], v, n => (v, n, [])
  | c :: cs, v, n =>
    if c.isDigit then digitsAux cs (10 * v + (c.toNat - 48)) (n + 1)
    else (v, n, c :: cs)

/-- Unsigned part of Python `float(...)` on a plain decimal string:
digits with at most one decimal point and at least one digit
(`"57.4"`, `"5."`, `".5"`, `"280"`; not `""`, `"."` or `"a"`). -/
def parseUnsignedFloat (cs : List Char) : Option ℚ :=
  let (ip, ni, rest) := digitsAux cs 0 0
  match rest with
  | [] => if ni = 0 then none else some ((ip : ℕ) : ℚ)
  | '.' :: rest2 =>
    let (fp, nf, rest3) := digitsAux rest2 0 0
    match rest3 with
    | [] =>
      if ni = 0 && nf = 0 then none
      else some (mkRat (ip * 10 ^ nf + fp) (10 ^ nf))
    | _ => none
  | _ => none

/-- Python `float(s)` restricted to the plain signed decimal forms that the
station emits (`"57.4"`, `"-3"`, `".5"`, ...).  Strings outside this
sub-language (such as `"abc"`) are unparseable, exactly as in Python. -/
def parseFloat (s : String) : Option ℚ :=
  match s.data with
  | [] => none
  | '-' :: rest => (parseUnsignedFloat rest).map Neg.neg
  | '+' :: rest => parseUnsignedFloat rest
  | cs => parseUnsignedFloat cs

/-- Signed digit string as Python `int(...)` accepts it. -/
def parseIntAux (sign : Bool) (cs : List Char) : Option ℤ :=
  let (v, n, rest) := digitsAux cs 0 0
  match rest with
  | [] =>
    if n = 0 then none
    else some (if sign then -(v : ℤ) else (v : ℤ))
  | _ => none

/-- Python `int(s)`: an optional sign followed by digits only
(so `int("81")` succeeds but `int("81.5")` raises). -/
def parseInt (s : String) : Option ℤ :=
  match s.data with
  | [] => none
  | '-' :: rest => parseIntAux true rest
  | '+' :: rest => parseIntAux false rest
  | cs => parseIntAux false cs

/-- `float(s)` as the driver calls it: raises `ValueError` on failure. -/
def pyFloat (s : String) : Except PyErr ℚ :=
  match parseFloat s with
  | some q => .ok q
  | none => .error .valueError

/-- `int(s)` as the driver calls it: raises `ValueError` on failure. -/
def pyInt (s : String) : Except PyErr ℤ :=
  match parseInt s with
  | some n => .ok n
  | none => .error .valueError

/-- `item[i]`: raises `IndexError` when out of range. -/
def pyIndex (it : Item) (i : ℕ) : Except PyErr String :=
  match it.get? i with
  | some s => .ok s
  | none => .error .indexError

/-- Body of `for item in items` under `title == 'Indoor'`
(l7.py lines 216-220). -/
def indoorItem (p : Packet) (item : Item) : Except PyErr Packet := do
  let l0 ← pyIndex item 0
  if l0 = "Temperature" then do
    let v ← pyFloat (← pyIndex item 1)
    .ok (dict_set p "inTemp" v)
  else if l0 = "Humidity" then do
    let v ← pyInt (← pyIndex item 1)
    .ok (dict_set p "inHumidity" (v : ℚ))
  else .ok p

/-- Body of `for item in items` under `title == 'Outdoor'`
(l7.py lines 223-227). -/
def outdoorItem (p : Packet) (item : Item) : Except PyErr Packet := do
  let l0 ← pyIndex item 0
  if l0 = "Temperature" then do
    let v ← pyFloat (← pyIndex item 1)
    .ok (dict_set p "outTemp" v)
  else if l0 = "Humidity" then do
    let v ← pyInt (← pyIndex item 1)
    .ok (dict_set p "outHumidity" (v : ℚ))
  else .ok p

/-- Body of `for item in items` under `title == 'Pressure'`
(l7.py lines 230-232). -/
def pressureItem (p : Packet) (item : Item) : Except PyErr Packet := do
  let l0 ← pyIndex item 0
  if l0 = "Absolute" then do
    let v ← pyFloat (← pyIndex item 1)
    .ok (dict_set p "pressure" v)
  else .ok p

/-- Body of `for item in items` under `title == 'Wind Speed'`
(l7.py lines 235-241).  Note the source stores the gust under the
misspelled key `'windGuest'`. -/
def windItem (p : Packet) (item : Item) : Except PyErr Packet := do
  let l0 ← pyIndex item 0
  if l0 = "Wind" then do
    let v ← pyFloat (← pyIndex item 1)
    .ok (dict_set p "windSpeed" v)
  else if l0 = "Gust" then do
    let v ← pyFloat (← pyIndex item 1)
    .ok (dict_set p "windGuest" v)
  else if l0 = "Direction Average 2 Minute" then do
    let v ← pyFloat (← pyIndex item 1)
    .ok (dict_set p "windDir" v)
  else .ok p

/-- Body of `for item in items` under `title == 'Rainfall'`
(l7.py lines 245-260); the state also carries the local `rain_total`,
which is set alongside `packet['rain_total']` on a `Total` entry. -/
def rainItem (pr : Packet × Option ℚ) (item : Item) :
    Except PyErr (Packet × Option ℚ) := do
  let l0 ← pyIndex item 0
  if l0 = "Rate" then do
    let v ← pyFloat (← pyIndex item 1)
    .ok (dict_set pr.1 "rain_rate" v, pr.2)
  else if l0 = "Hour" then do
    let v ← pyFloat (← pyIndex item 1)
    .ok (dict_set pr.1 "rain_hour" v, pr.2)
  else if l0 = "Day" then do
    let v ← pyFloat (← pyIndex item 1)
    .ok (dict_set pr.1 "rain_day" v, pr.2)
  else if l0 = "Week" then do
    let v ← pyFloat (← pyIndex item 1)
    .ok (dict_set pr.1 "rain_week" v, pr.2)
  else if l0 = "Month" then do
    let v ← pyFloat (← pyIndex item 1)
    .ok (dict_set pr.1 "rain_month" v, pr.2)
  else if l0 = "Year" then do
    let v ← pyFloat (← pyIndex item 1)
    .ok (dict_set pr.1 "rain_year" v, pr.2)
  else if l0 = "Total" then do
    let v ← pyFloat (← pyIndex item 1)
    .ok (dict_set pr.1 "rain_total" v, some v)
  else .ok pr

/-- Body of `for item in items` under `title == 'Solar'`
(l7.py lines 264-268). -/
def solarItem (p : Packet) (item : Item) : Except PyErr Packet := do
  let l0 ← pyIndex item 0
  if l0 = "Light" then do
    let v ← pyFloat (← pyIndex item 1)
    .ok (dict_set p "luminosity" v)
  else if l0 = "UVI" then do
    let v ← pyFloat (← pyIndex item 1)
    .ok (dict_set p "UV" v)
  else .ok p

/-- The `for item in items` loops of the recognized branches. -/
def procIndoor (p : Packet) (its : List Item) : Except PyErr Packet :=
  its.foldlM indoorItem p

def procOutdoor (p : Packet) (its : List Item) : Except PyErr Packet :=
  its.foldlM outdoorItem p

def procPressure (p : Packet) (its : List Item) : Except PyErr Packet :=
  its.foldlM pressureItem p

def procWind (p : Packet) (its : List Item) : Except PyErr Packet :=
  its.foldlM windItem p

def procRain (p : Packet) (rt : Option ℚ) (its : List Item) :
    Except PyErr (Packet × Option ℚ) :=
  its.foldlM rainItem (p, rt)

def procSolar (p : Packet) (its : List Item) : Except PyErr Packet :=
  its.foldlM solarItem p

/-- `items = sensor.get('list')` followed by `for item in items`:
iterating `None` raises `TypeError`. -/
def getList (g : SensorGroup) : Except PyErr (List Item) :=
  match g.list with
  | some l => .ok l
  | none => .error .typeError

/-- State threaded through the `for sensor in sensor_list` loop: the packet
under construction and the Python local `items`, which keeps its binding
across iterations (`none` = never assigned yet).  The `'Solar'` branch of
the source reads `items` without reassigning it (l7.py line 264). -/
structure LoopSt where
  packet : Packet
  items : Option (List Item)
  deriving Repr

/-- One iteration of `for sensor in sensor_list` (l7.py lines 212-268). -/
def procSensor (last_rain_total : Option ℚ) (st : LoopSt)
    (sensor : SensorGroup) : Except PyErr LoopSt :=
  if sensor.title = some "Indoor" then do
    let items ← getList sensor
    let p ← procIndoor st.packet items
    .ok ⟨p, some items⟩
  else if sensor.title = some "Outdoor" then do
    let items ← getList sensor
    let p ← procOutdoor st.packet items
    .ok ⟨p, some items⟩
  else if sensor.title = some "Pressure" then do
    let items ← getList sensor
    let p ← procPressure st.packet items
    .ok ⟨p, some items⟩
  else if sensor.title = some "Wind Speed" then do
    let items ← getList sensor
    let p ← procWind st.packet items
    .ok ⟨p, some items⟩
  else if sensor.title = some "Rainfall" then do
    let items ← getList sensor
    let pr ← procRain st.packet none items
    let p := match pr.2, last_rain_total with
      | some t, some l => dict_set pr.1 "rain" (t - l)
      | _, _ => pr.1
    .ok ⟨p, some items⟩
  else if sensor.title = some "Solar" then
    match st.items with
    | none => .error .unboundLocal
    | some items => do
      let p ← procSolar st.packet items
      .ok ⟨p, st.items⟩
  else .ok st

/-- The packet before any sensor data is mapped:
`packet['dateTime'] = int(time.time() + 0.5)` (passed in as `now`) and
`packet['usUnits'] = weewx.US`. -/
def initPacket (now : ℤ) : Packet :=
  dict_set (dict_set [] "dateTime" (now : ℚ)) "usUnits" weewx_US

/-- `data.get('battery', {}).get('list', [])`. -/
def batteriesOf (d : RawDoc) : List String :=
  (d.battery.map (fun b => b.list.getD [])).getD []

/-- The battery step at the end of `data_to_packet`
(l7.py lines 269-273). -/
def applyBattery (d : RawDoc) (p : Packet) : Packet :=
  match batteriesOf d with
  | b0 :: _ => if b0 = "All battery are ok" then dict_set p "battery" 0 else p
  | [] => p

/-- `L7Driver.data_to_packet(data, last_rain_total)` (l7.py lines 194-274),
with the rounded `time.time()` passed in as `now`.  `data = none` embeds a
falsy value (`None` from a failed fetch, or an empty dict). -/
def data_to_packet (data : Option RawDoc) (last_rain_total : Option ℚ)
    (now : ℤ) : Except PyErr Packet :=
  match data with
  | none => .ok (initPacket now)
  | some d => do
    let st ← (d.sensor.getD []).foldlM (procSensor last_rain_total)
      ⟨initPacket now, none⟩
    .ok (applyBattery d st.packet)

/-- One pass of the body of the `while True` loop of
`L7Driver.genLoopPackets` (l7.py lines 182-192), after the collector has
produced `data`: build the packet, then update `self._last_rain_total` from
`pkt.get('rain_total')`.  There is no exception handler in the loop, so an
error from `data_to_packet` propagates. -/
def genLoopPackets_body (data : Option RawDoc) (last_rain_total : Option ℚ)
    (now : ℤ) : Except PyErr (Packet × Option ℚ) := do
  let pkt ← data_to_packet data last_rain_total now
  let last' := match dict_get pkt "rain_total" with
    | some t => some t
    | none => last_rain_total
  .ok (pkt, last')

/-- The packet a successful `data_to_packet` run produces (`[]` is a
placeholder never hit in the uses below, which are all on `.ok` results). -/
def packetOf (r : Except PyErr Packet) : Packet := r.toOption.getD []

/-! ## The collector, `L7Collector.get_data` (l7.py lines 284-297)

One fetch attempt is `urlopen(self._url).read()` followed by
`json.loads(resp)`.  The environment is abstracted as a function from the
attempt number to what that attempt does. -/

/-- What `json.loads` does to a successfully fetched body. -/
inductive Body where
  | goodJson (d : RawDoc)  -- valid JSON: loads returns the document
  | badJson                -- malformed body: loads raises a decode error
  deriving DecidableEq, Repr

/-- One fetch attempt as seen by `get_data`. -/
inductive Attempt where
  | fetchError             -- urlopen/read raises socket.error, socket.timeout,
                           -- URLError or HTTPError (the caught tuple)
  | response (b : Body)    -- the HTTP retrieval succeeds with this body
  deriving DecidableEq, Repr

/-- The log lines `get_data` can emit (`logerr` calls). -/
inductive LogMsg where
  | attemptFailed (tries max : ℕ)  -- "failed attempt %s of %s to get data"
  | exhausted (max : ℕ)            -- "failed to get data after %s attempts"
  deriving DecidableEq, Repr

/-- How a call of `get_data` ends. -/
inductive GetOutcome where
  | returned (d : RawDoc)  -- `return data`
  | returnedNone           -- the for loop finished; `return None`
  | raised                 -- an uncaught exception escaped (the JSON decode
                           -- error is not in the caught tuple)
  deriving DecidableEq, Repr

/-- `self._max_tries = 3`. -/
def max_tries : ℕ := 3

/-- The `for tries in range(self._max_tries)` loop of `get_data`, over the
remaining attempt numbers.  Per iteration: on a transport error the
`except` clause logs "failed attempt ..." and sleeps, then the loop
continues; on a good body the `try` body returns the data, so the `else`
clause attached to the `try` can never run (its body always either returns
or raises), and the "failed to get data after N attempts" message is dead
code; on a malformed body `json.loads` raises a decode error that no
clause catches. -/
def get_data_run (att : ℕ → Attempt) : List ℕ → GetOutcome × List LogMsg
  | [] => (.returnedNone, [])
  | tries :: rest =>
    match att tries with
    | .response (.goodJson d) => (.returned d, [])
    | .response .badJson => (.raised, [])
    | .fetchError =>
      let r := get_data_run att rest
      (r.1, .attemptFailed (tries + 1) max_tries :: r.2)

/-- `L7Collector.get_data(self)`: run the retry loop over
`range(self._max_tries)`, returning the outcome and the log lines. -/
def get_data (att : ℕ → Attempt) : GetOutcome × List LogMsg :=
  get_data_run att (List.range max_tries)

/-! ## Concrete documents -/

/-- The bound-cluster example document from the module docstring
(l7.py lines 32-83).  The `range` key of the Rainfall group is not read by
the code and so is not part of the model. -/
def boundClusterDoc : RawDoc :=
  ⟨some [
    ⟨some "Indoor", some [
      ["Temperature", "57.4", "°F"],
      ["Humidity", "81", "%"]]⟩,
    ⟨some "Outdoor", some [
      ["Temperature", "54.7", "°F"],
      ["Humidity", "94", "%"]]⟩,
    ⟨some "Pressure", some [
      ["Absolute", "29.76", "inhg"],
      ["Relative", "29.62", "inhg"]]⟩,
    ⟨some "Wind Speed", some [
      ["Max Daily Gust", "5.1", "mph"],
      ["Wind", "1.1", "mph"],
      ["Gust", "1.6", "mph"],
      ["Direction", "56", "°"],
      ["Wind Average 2 Minute", "1.3", "mph"],
      ["Direction Average 2 Minute", "280", "°"],
      ["Wind Average 10 Minute", "1.3", "mph"],
      ["Direction Average 10 Minute", "5", "°"]]⟩,
    ⟨some "Rainfall", some [
      ["Rate", "0.07", "inch/hr"],
      ["Hour", "0.02", "inch", "43"],
      ["Day", "0.02", "inch", "44"],
      ["Week", "0.53", "inch", "45"],
      ["Month", "0.56", "inch", "46"],
      ["Year", "0.56", "inch", "47"],
      ["Total", "0.56", "inch", "48"]]⟩,
    ⟨some "Solar", some [
      ["Light", "0.0", "w/m²"],
      ["UVI", "0.0", ""]]⟩],
   some ⟨some ["All battery are ok"]⟩⟩

/-- The packet built from the bound-cluster docstring example with
`last_rain_total = None`. -/
def boundPacket (now : ℤ) : Packet :=
  packetOf (data_to_packet (some boundClusterDoc) none now)

/-! ## Helper lemmas -/

lemma ebind_ok {α β : Type} (a : α) (f : α → Except PyErr β) :
    (Except.ok a >>= f : Except PyErr β) = f a := rfl

lemma ebind_err {α β : Type} (e : PyErr) (f : α → Except PyErr β) :
    (Except.error e >>= f : Except PyErr β) = .error e := rfl

lemma dict_get_set_self (p : Packet) (k : String) (v : ℚ) :
    dict_get (dict_set p k v) k = some v := by
  simp [dict_get, dict_set, List.lookup]

lemma dict_get_set_of_ne (p : Packet) (k k' : String) (v : ℚ)
    (h : k' ≠ k) : dict_get (dict_set p k v) k' = dict_get p k' := by
  have hb : (k' == k) = false := beq_eq_false_iff_ne.mpr h
  simp [dict_get, dict_set, List.lookup, hb]

/-- Induction principle for `foldlM` over `Except`: an invariant preserved
by each successful step holds at the end of a successful fold. -/
lemma foldlM_ok_induct {σ α : Type} (f : σ → α → Except PyErr σ)
    (P : σ → Prop) (hf : ∀ s a s', f s a = .ok s' → P s → P s') :
    ∀ (l : List α) (s s' : σ), l.foldlM f s = .ok s' → P s → P s' := by
  intro l
  induction l with
  | nil =>
    intro s s' h hp
    simp only [List.foldlM_nil] at h
    cases h
    exact hp
  | cons a t ih =>
    intro s s' h hp
    rw [List.foldlM_cons] at h
    cases hfa : f s a with
    | error e => rw [hfa, ebind_err] at h; cases h
    | ok s₁ =>
      rw [hfa, ebind_ok] at h
      exact ih s₁ s' h (hf s a s₁ hfa hp)

/-- If some element of the list makes the step fail from every state, the
whole fold fails. -/
lemma foldlM_error_of_mem {σ α : Type} (f : σ → α → Except PyErr σ)
    (a : α) (hf : ∀ s, ∃ e, f s a = .error e) :
    ∀ (l : List α), a ∈ l → ∀ s, ∃ e, l.foldlM f s = .error e := by
  intro l
  induction l with
  | nil => intro h; cases h
  | cons b t ih =>
    intro hmem s
    rw [List.foldlM_cons]
    rcases List.mem_cons.mp hmem with heq | htl
    · obtain ⟨e, he⟩ := hf s
      exact ⟨e, by rw [← heq, he, ebind_err]⟩
    · cases hfb : f s b with
      | error e => exact ⟨e, rfl⟩
      | ok s₁ =>
        obtain ⟨e, he⟩ := ih htl s₁
        exact ⟨e, he⟩

lemma indoorItem_get (p q : Packet) (it : Item) (k : String)
    (h1 : k ≠ "inTemp") (h2 : k ≠ "inHumidity")
    (h : indoorItem p it = .ok q) : dict_get q k = dict_get p k := by
  unfold indoorItem at h
  cases hi0 : pyIndex it 0 with
  | error e => rw [hi0, ebind_err] at h; cases h
  | ok l0 =>
    rw [hi0, ebind_ok] at h
    split at h
    · cases hi1 : pyIndex it 1 with
      | error e => rw [hi1, ebind_err] at h; cases h
      | ok s =>
        rw [hi1, ebind_ok] at h
        cases hf : pyFloat s with
        | error e => rw [hf, ebind_err] at h; cases h
        | ok v =>
          rw [hf, ebind_ok] at h
          cases h
          exact dict_get_set_of_ne p "inTemp" k v h1
    · split at h
      · cases hi1 : pyIndex it 1 with
        | error e => rw [hi1, ebind_err] at h; cases h
        | ok s =>
          rw [hi1, ebind_ok] at h
          cases hf : pyInt s with
          | error e => rw [hf, ebind_err] at h; cases h
          | ok v =>
            rw [hf, ebind_ok] at h
            cases h
            exact dict_get_set_of_ne p "inHumidity" k (v : ℚ) h2
      · cases h
        rfl

lemma outdoorItem_get (p q : Packet) (it : Item) (k : String)
    (h1 : k ≠ "outTemp") (h2 : k ≠ "outHumidity")
    (h : outdoorItem p it = .ok q) : dict_get q k = dict_get p k := by
  unfold outdoorItem at h
  cases hi0 : pyIndex it 0 with
  | error e => rw [hi0, ebind_err] at h; cases h
  | ok l0 =>
    rw [hi0, ebind_ok] at h
    split at h
    · cases hi1 : pyIndex it 1 with
      | error e => rw [hi1, ebind_err] at h; cases h
      | ok s =>
        rw [hi1, ebind_ok] at h
        cases hf : pyFloat s with
        | error e => rw [hf, ebind_err] at h; cases h
        | ok v =>
          rw [hf, ebind_ok] at h
          cases h
          exact dict_get_set_of_ne p "outTemp" k v h1
    · split at h
      · cases hi1 : pyIndex it 1 with
        | error e => rw [hi1, ebind_err] at h; cases h
        | ok s =>
          rw [hi1, ebind_ok] at h
          cases hf : pyInt s with
          | error e => rw [hf, ebind_err] at h; cases h
          | ok v =>
            rw [hf, ebind_ok] at h
            cases h
            exact dict_get_set_of_ne p "outHumidity" k (v : ℚ) h2
      · cases h
        rfl

lemma pressureItem_get (p q : Packet) (it : Item) (k : String)
    (h1 : k ≠ "pressure")
    (h : pressureItem p it = .ok q) : dict_get q k = dict_get p k := by
  unfold pressureItem at h
  cases hi0 : pyIndex it 0 with
  | error e => rw [hi0, ebind_err] at h; cases h
  | ok l0 =>
    rw [hi0, ebind_ok] at h
    split at h
    · cases hi1 : pyIndex it 1 with
      | error e => rw [hi1, ebind_err] at h; cases h
      | ok s =>
        rw [hi1, ebind_ok] at h
        cases hf : pyFloat s with
        | error e => rw [hf, ebind_err] at h; cases h
        | ok v =>
          rw [hf, ebind_ok] at h
          cases h
          exact dict_get_set_of_ne p "pressure" k v h1
    · cases h
      rfl

lemma windItem_get (p q : Packet) (it : Item) (k : String)
    (h1 : k ≠ "windSpeed") (h2 : k ≠ "windGuest") (h3 : k ≠ "windDir")
    (h : windItem p it = .ok q) : dict_get q k = dict_get p k := by
  unfold windItem at h
  cases hi0 : pyIndex it 0 with
  | error e => rw [hi0, ebind_err] at h; cases h
  | ok l0 =>
    rw [hi0, ebind_ok] at h
    split at h
    · cases hi1 : pyIndex it 1 with
      | error e => rw [hi1, ebind_err] at h; cases h
      | ok s =>
        rw [hi1, ebind_ok] at h
        cases hf : pyFloat s with
        | error e => rw [hf, ebind_err] at h; cases h
        | ok v =>
          rw [hf, ebind_ok] at h
          cases h
          exact dict_get_set_of_ne p "windSpeed" k v h1
    · split at h
      · cases hi1 : pyIndex it 1 with
        | error e => rw [hi1, ebind_err] at h; cases h
        | ok s =>
          rw [hi1, ebind_ok] at h
          cases hf : pyFloat s with
          | error e => rw [hf, ebind_err] at h; cases h
          | ok v =>
            rw [hf, ebind_ok] at h
            cases h
            exact dict_get_set_of_ne p "windGuest" k v h2
      · split at h
        · cases hi1 : pyIndex it 1 with
          | error e => rw [hi1, ebind_err] at h; cases h
          | ok s =>
            rw [hi1, ebind_ok] at h
            cases hf : pyFloat s with
            | error e => rw [hf, ebind_err] at h; cases h
            | ok v =>
              rw [hf, ebind_ok] at h
              cases h
              exact dict_get_set_of_ne p "windDir" k v h3
        · cases h
          rfl

lemma solarItem_get (p q : Packet) (it : Item) (k : String)
    (h1 : k ≠ "luminosity") (h2 : k ≠ "UV")
    (h : solarItem p it = .ok q) : dict_get q k = dict_get p k := by
  unfold solarItem at h
  cases hi0 : pyIndex it 0 with
  | error e => rw [hi0, ebind_err] at h; cases h
  | ok l0 =>
    rw [hi0, ebind_ok] at h
    split at h
    · cases hi1 : pyIndex it 1 with
      | error e => rw [hi1, ebind_err] at h; cases h
      | ok s =>
        rw [hi1, ebind_ok] at h
        cases hf : pyFloat s with
        | error e => rw [hf, ebind_err] at h; cases h
        | ok v =>
          rw [hf, ebind_ok] at h
          cases h
          exact dict_get_set_of_ne p "luminosity" k v h1
    · split at h
      · cases hi1 : pyIndex it 1 with
        | error e => rw [hi1, ebind_err] at h; cases h
        | ok s =>
          rw [hi1, ebind_ok] at h
          cases hf : pyFloat s with
          | error e => rw [hf, ebind_err] at h; cases h
          | ok v =>
            rw [hf, ebind_ok] at h
            cases h
            exact dict_get_set_of_ne p "UV" k v h2
      · cases h
        rfl

/-- What one Rainfall item does to the packet and the local `rain_total`:
the `rain` key is never written; the local and the `rain_total` key either
both stay as they were or are both set to the same freshly parsed total. -/
lemma rainItem_char (pr qr : Packet × Option ℚ) (it : Item)
    (h : rainItem pr it = .ok qr) :
    dict_get qr.1 "rain" = dict_get pr.1 "rain" ∧
      ((qr.2 = pr.2 ∧ dict_get qr.1 "rain_total" = dict_get pr.1 "rain_total")
        ∨ (∃ t, qr.2 = some t ∧ dict_get qr.1 "rain_total" = some t)) := by
  unfold rainItem at h
  cases hi0 : pyIndex it 0 with
  | error e => rw [hi0, ebind_err] at h; cases h
  | ok l0 =>
    rw [hi0, ebind_ok] at h
    split at h
    case isTrue =>
      cases hi1 : pyIndex it 1 with
      | error e => rw [hi1, ebind_err] at h; cases h
      | ok s =>
        rw [hi1, ebind_ok] at h
        cases hf : pyFloat s with
        | error e => rw [hf, ebind_err] at h; cases h
        | ok v =>
          rw [hf, ebind_ok] at h
          cases h
          exact ⟨dict_get_set_of_ne pr.1 "rain_rate" "rain" v (by decide),
            .inl ⟨rfl, dict_get_set_of_ne pr.1 "rain_rate" "rain_total" v
              (by decide)⟩⟩
    all_goals split at h
    case isTrue =>
      cases hi1 : pyIndex it 1 with
      | error e => rw [hi1, ebind_err] at h; cases h
      | ok s =>
        rw [hi1, ebind_ok] at h
        cases hf : pyFloat s with
        | error e => rw [hf, ebind_err] at h; cases h
        | ok v =>
          rw [hf, ebind_ok] at h
          cases h
          exact ⟨dict_get_set_of_ne pr.1 "rain_hour" "rain" v (by decide),
            .inl ⟨rfl, dict_get_set_of_ne pr.1 "rain_hour" "rain_total" v
              (by decide)⟩⟩
    all_goals split at h
    case isTrue =>
      cases hi1 : pyIndex it 1 with
      | error e => rw [hi1, ebind_err] at h; cases h
      | ok s =>
        rw [hi1, ebind_ok] at h
        cases hf : pyFloat s with
        | error e => rw [hf, ebind_err] at h; cases h
        | ok v =>
          rw [hf, ebind_ok] at h
          cases h
          exact ⟨dict_get_set_of_ne pr.1 "rain_day" "rain" v (by decide),
            .inl ⟨rfl, dict_get_set_of_ne pr.1 "rain_day" "rain_total" v
              (by decide)⟩⟩
    all_goals split at h
    case isTrue =>
      cases hi1 : pyIndex it 1 with
      | error e => rw [hi1, ebind_err] at h; cases h
      | ok s =>
        rw [hi1, ebind_ok] at h
        cases hf : pyFloat s with
        | error e => rw [hf, ebind_err] at h; cases h
        | ok v =>
          rw [hf, ebind_ok] at h
          cases h
          exact ⟨dict_get_set_of_ne pr.1 "rain_week" "rain" v (by decide),
            .inl ⟨rfl, dict_get_set_of_ne pr.1 "rain_week" "rain_total" v
              (by decide)⟩⟩
    all_goals split at h
    case isTrue =>
      cases hi1 : pyIndex it 1 with
      | error e => rw [hi1, ebind_err] at h; cases h
      | ok s =>
        rw [hi1, ebind_ok] at h
        cases hf : pyFloat s with
        | error e => rw [hf, ebind_err] at h; cases h
        | ok v =>
          rw [hf, ebind_ok] at h
          cases h
          exact ⟨dict_get_set_of_ne pr.1 "rain_month" "rain" v (by decide),
            .inl ⟨rfl, dict_get_set_of_ne pr.1 "rain_month" "rain_total" v
              (by decide)⟩⟩
    all_goals split at h
    case isTrue =>
      cases hi1 : pyIndex it 1 with
      | error e => rw [hi1, ebind_err] at h; cases h
      | ok s =>
        rw [hi1, ebind_ok] at h
        cases hf : pyFloat s with
        | error e => rw [hf, ebind_err] at h; cases h
        | ok v =>
          rw [hf, ebind_ok] at h
          cases h
          exact ⟨dict_get_set_of_ne pr.1 "rain_year" "rain" v (by decide),
            .inl ⟨rfl, dict_get_set_of_ne pr.1 "rain_year" "rain_total" v
              (by decide)⟩⟩
    all_goals split at h
    case isTrue =>
      cases hi1 : pyIndex it 1 with
      | error e => rw [hi1, ebind_err] at h; cases h
      | ok s =>
        rw [hi1, ebind_ok] at h
        cases hf : pyFloat s with
        | error e => rw [hf, ebind_err] at h; cases h
        | ok v =>
          rw [hf, ebind_ok] at h
          cases h
          exact ⟨dict_get_set_of_ne pr.1 "rain_total" "rain" v (by decide),
            .inr ⟨v, rfl, dict_get_set_self pr.1 "rain_total" v⟩⟩
    case isFalse =>
      cases h
      exact ⟨rfl, .inl ⟨rfl, rfl⟩⟩

/-- A Rainfall item never writes a key outside the seven `rain_*` keys. -/
lemma rainItem_get (pr qr : Packet × Option ℚ) (it : Item) (k : String)
    (h1 : k ≠ "rain_rate") (h2 : k ≠ "rain_hour") (h3 : k ≠ "rain_day")
    (h4 : k ≠ "rain_week") (h5 : k ≠ "rain_month") (h6 : k ≠ "rain_year")
    (h7 : k ≠ "rain_total")
    (h : rainItem pr it = .ok qr) : dict_get qr.1 k = dict_get pr.1 k := by
  unfold rainItem at h
  cases hi0 : pyIndex it 0 with
  | error e => rw [hi0, ebind_err] at h; cases h
  | ok l0 =>
    rw [hi0, ebind_ok] at h
    split at h
    case isTrue =>
      cases hi1 : pyIndex it 1 with
      | error e => rw [hi1, ebind_err] at h; cases h
      | ok s =>
        rw [hi1, ebind_ok] at h
        cases hf : pyFloat s with
        | error e => rw [hf, ebind_err] at h; cases h
        | ok v =>
          rw [hf, ebind_ok] at h
          cases h
          exact dict_get_set_of_ne pr.1 "rain_rate" k v h1
    all_goals split at h
    case isTrue =>
      cases hi1 : pyIndex it 1 with
      | error e => rw [hi1, ebind_err] at h; cases h
      | ok s =>
        rw [hi1, ebind_ok] at h
        cases hf : pyFloat s with
        | error e => rw [hf, ebind_err] at h; cases h
        | ok v =>
          rw [hf, ebind_ok] at h
          cases h
          exact dict_get_set_of_ne pr.1 "rain_hour" k v h2
    all_goals split at h
    case isTrue =>
      cases hi1 : pyIndex it 1 with
      | error e => rw [hi1, ebind_err] at h; cases h
      | ok s =>
        rw [hi1, ebind_ok] at h
        cases hf : pyFloat s with
        | error e => rw [hf, ebind_err] at h; cases h
        | ok v =>
          rw [hf, ebind_ok] at h
          cases h
          exact dict_get_set_of_ne pr.1 "rain_day" k v h3
    all_goals split at h
    case isTrue =>
      cases hi1 : pyIndex it 1 with
      | error e => rw [hi1, ebind_err] at h; cases h
      | ok s =>
        rw [hi1, ebind_ok] at h
        cases hf : pyFloat s with
        | error e => rw [hf, ebind_err] at h; cases h
        | ok v =>
          rw [hf, ebind_ok] at h
          cases h
          exact dict_get_set_of_ne pr.1 "rain_week" k v h4
    all_goals split at h
    case isTrue =>
      cases hi1 : pyIndex it 1 with
      | error e => rw [hi1, ebind_err] at h; cases h
      | ok s =>
        rw [hi1, ebind_ok] at h
        cases hf : pyFloat s with
        | error e => rw [hf, ebind_err] at h; cases h
        | ok v =>
          rw [hf, ebind_ok] at h
          cases h
          exact dict_get_set_of_ne pr.1 "rain_month" k v h5
    all_goals split at h
    case isTrue =>
      cases hi1 : pyIndex it 1 with
      | error e => rw [hi1, ebind_err] at h; cases h
      | ok s =>
        rw [hi1, ebind_ok] at h
        cases hf : pyFloat s with
        | error e => rw [hf, ebind_err] at h; cases h
        | ok v =>
          rw [hf, ebind_ok] at h
          cases h
          exact dict_get_set_of_ne pr.1 "rain_year" k v h6
    all_goals split at h
    case isTrue =>
      cases hi1 : pyIndex it 1 with
      | error e => rw [hi1, ebind_err] at h; cases h
      | ok s =>
        rw [hi1, ebind_ok] at h
        cases hf : pyFloat s with
        | error e => rw [hf, ebind_err] at h; cases h
        | ok v =>
          rw [hf, ebind_ok] at h
          cases h
          exact dict_get_set_of_ne pr.1 "rain_total" k v h7
    case isFalse =>
      cases h
      rfl

/-! Branch-level versions, by induction over the item lists. -/

lemma procIndoor_get (p q : Packet) (its : List Item) (k : String)
    (h1 : k ≠ "inTemp") (h2 : k ≠ "inHumidity")
    (h : procIndoor p its = .ok q) : dict_get q k = dict_get p k :=
  foldlM_ok_induct indoorItem (fun r => dict_get r k = dict_get p k)
    (fun s a s' hs hp => (indoorItem_get s s' a k h1 h2 hs).trans hp)
    its p q h rfl

lemma procOutdoor_get (p q : Packet) (its : List Item) (k : String)
    (h1 : k ≠ "outTemp") (h2 : k ≠ "outHumidity")
    (h : procOutdoor p its = .ok q) : dict_get q k = dict_get p k :=
  foldlM_ok_induct outdoorItem (fun r => dict_get r k = dict_get p k)
    (fun s a s' hs hp => (outdoorItem_get s s' a k h1 h2 hs).trans hp)
    its p q h rfl

lemma procPressure_get (p q : Packet) (its : List Item) (k : String)
    (h1 : k ≠ "pressure")
    (h : procPressure p its = .ok q) : dict_get q k = dict_get p k :=
  foldlM_ok_induct pressureItem (fun r => dict_get r k = dict_get p k)
    (fun s a s' hs hp => (pressureItem_get s s' a k h1 hs).trans hp)
    its p q h rfl

lemma procWind_get (p q : Packet) (its : List Item) (k : String)
    (h1 : k ≠ "windSpeed") (h2 : k ≠ "windGuest") (h3 : k ≠ "windDir")
    (h : procWind p its = .ok q) : dict_get q k = dict_get p k :=
  foldlM_ok_induct windItem (fun r => dict_get r k = dict_get p k)
    (fun s a s' hs hp => (windItem_get s s' a k h1 h2 h3 hs).trans hp)
    its p q h rfl

lemma procSolar_get (p q : Packet) (its : List Item) (k : String)
    (h1 : k ≠ "luminosity") (h2 : k ≠ "UV")
    (h : procSolar p its = .ok q) : dict_get q k = dict_get p k :=
  foldlM_ok_induct solarItem (fun r => dict_get r k = dict_get p k)
    (fun s a s' hs hp => (solarItem_get s s' a k h1 h2 hs).trans hp)
    its p q h rfl

lemma procRain_get (p q : Packet) (rt0 rt1 : Option ℚ) (its : List Item)
    (k : String)
    (h1 : k ≠ "rain_rate") (h2 : k ≠ "rain_hour") (h3 : k ≠ "rain_day")
    (h4 : k ≠ "rain_week") (h5 : k ≠ "rain_month") (h6 : k ≠ "rain_year")
    (h7 : k ≠ "rain_total")
    (h : procRain p rt0 its = .ok (q, rt1)) : dict_get q k = dict_get p k :=
  foldlM_ok_induct rainItem (fun pr => dict_get pr.1 k = dict_get p k)
    (fun s a s' hs hp =>
      (rainItem_get s s' a k h1 h2 h3 h4 h5 h6 h7 hs).trans hp)
    its (p, rt0) (q, rt1) h rfl

/-- After the whole Rainfall item loop (started with local
`rain_total = None`): `rain` is untouched, and either no `Total` entry was
parsed (local still `None`, key untouched) or the local and the
`rain_total` key hold the same parsed value. -/
lemma procRain_char (p q : Packet) (rt1 : Option ℚ) (its : List Item)
    (h : procRain p none its = .ok (q, rt1)) :
    dict_get q "rain" = dict_get p "rain" ∧
      ((rt1 = none ∧ dict_get q "rain_total" = dict_get p "rain_total")
        ∨ (∃ t, rt1 = some t ∧ dict_get q "rain_total" = some t)) := by
  have step : ∀ (s : Packet × Option ℚ) (a : Item) (s' : Packet × Option ℚ),
      rainItem s a = .ok s' →
      (dict_get s.1 "rain" = dict_get p "rain" ∧
        ((s.2 = none ∧ dict_get s.1 "rain_total" = dict_get p "rain_total")
          ∨ (∃ t, s.2 = some t ∧ dict_get s.1 "rain_total" = some t))) →
      (dict_get s'.1 "rain" = dict_get p "rain" ∧
        ((s'.2 = none ∧ dict_get s'.1 "rain_total" = dict_get p "rain_total")
          ∨ (∃ t, s'.2 = some t ∧
              dict_get s'.1 "rain_total" = some t))) := by
    intro s a s' hs hp
    obtain ⟨hr, hd⟩ := rainItem_char s s' a hs
    refine ⟨hr.trans hp.1, ?_⟩
    rcases hd with ⟨he, ht⟩ | ⟨t, hte, htt⟩
    · rcases hp.2 with ⟨hpe, hpt⟩ | ⟨t, hpe, hpt⟩
      · exact .inl ⟨he.trans hpe, ht.trans hpt⟩
      · exact .inr ⟨t, he.trans hpe, ht.trans hpt⟩
    · exact .inr ⟨t, hte, htt⟩
  exact foldlM_ok_induct rainItem _ step its (p, none) (q, rt1) h
    ⟨rfl, .inl ⟨rfl, rfl⟩⟩

/-- Every key the sensor loop can ever write. -/
def sensor_keys : List String :=
  ["inTemp", "inHumidity", "outTemp", "outHumidity", "pressure",
   "windSpeed", "windGuest", "windDir", "rain_rate", "rain_hour",
   "rain_day", "rain_week", "rain_month", "rain_year", "rain_total",
   "rain", "luminosity", "UV"]

/-- One sensor-loop iteration leaves every key outside `sensor_keys`
unchanged. -/
lemma procSensor_get (last : Option ℚ) (st st' : LoopSt) (g : SensorGroup)
    (k : String) (hk : k ∉ sensor_keys)
    (h : procSensor last st g = .ok st') :
    dict_get st'.packet k = dict_get st.packet k := by
  simp only [sensor_keys, List.mem_cons, List.not_mem_nil, or_false,
    not_or] at hk
  obtain ⟨k1, k2, k3, k4, k5, k6, k7, k8, k9, k10, k11, k12, k13, k14,
    k15, k16, k17, k18⟩ := hk
  unfold procSensor at h
  split at h
  · -- Indoor
    cases hgl : getList g with
    | error e => rw [hgl, ebind_err] at h; cases h
    | ok its =>
      rw [hgl, ebind_ok] at h
      cases hp : procIndoor st.packet its with
      | error e => rw [hp, ebind_err] at h; cases h
      | ok p =>
        rw [hp, ebind_ok] at h
        cases h
        exact procIndoor_get st.packet p its k k1 k2 hp
  all_goals split at h
  · -- Outdoor
    cases hgl : getList g with
    | error e => rw [hgl, ebind_err] at h; cases h
    | ok its =>
      rw [hgl, ebind_ok] at h
      cases hp : procOutdoor st.packet its with
      | error e => rw [hp, ebind_err] at h; cases h
      | ok p =>
        rw [hp, ebind_ok] at h
        cases h
        exact procOutdoor_get st.packet p its k k3 k4 hp
  all_goals split at h
  · -- Pressure
    cases hgl : getList g with
    | error e => rw [hgl, ebind_err] at h; cases h
    | ok its =>
      rw [hgl, ebind_ok] at h
      cases hp : procPressure st.packet its with
      | error e => rw [hp, ebind_err] at h; cases h
      | ok p =>
        rw [hp, ebind_ok] at h
        cases h
        exact procPressure_get st.packet p its k k5 hp
  all_goals split at h
  · -- Wind Speed
    cases hgl : getList g with
    | error e => rw [hgl, ebind_err] at h; cases h
    | ok its =>
      rw [hgl, ebind_ok] at h
      cases hp : procWind st.packet its with
      | error e => rw [hp, ebind_err] at h; cases h
      | ok p =>
        rw [hp, ebind_ok] at h
        cases h
        exact procWind_get st.packet p its k k6 k7 k8 hp
  all_goals split at h
  · -- Rainfall
    cases hgl : getList g with
    | error e => rw [hgl, ebind_err] at h; cases h
    | ok its =>
      rw [hgl, ebind_ok] at h
      cases hp : procRain st.packet none its with
      | error e => rw [hp, ebind_err] at h; cases h
      | ok pr =>
        obtain ⟨q, rt⟩ := pr
        rw [hp, ebind_ok] at h
        cases h
        have hq : dict_get q k = dict_get st.packet k :=
          procRain_get st.packet q none rt its k k9 k10 k11 k12 k13 k14
            k15 hp
        cases rt with
        | none => simpa using hq
        | some t =>
          cases last with
          | none => simpa using hq
          | some l =>
            simpa [dict_get_set_of_ne q "rain" k (t - l) k16] using hq
  all_goals split at h
  · -- Solar
    cases hsi : st.items with
    | none => rw [hsi] at h; cases h
    | some its =>
      simp only [hsi] at h
      cases hp : procSolar st.packet its with
      | error e => rw [hp, ebind_err] at h; cases h
      | ok p =>
        rw [hp, ebind_ok] at h
        cases h
        exact procSolar_get st.packet p its k k17 k18 hp
  · -- unrecognized title
    cases h
    rfl

/-- The relation the rain-delta rule maintains between the `rain` and
`rain_total` keys of the packet, for a fixed `last_rain_total`. -/
def RainInv (last : Option ℚ) (p : Packet) : Prop :=
  dict_get p "rain" =
    match dict_get p "rain_total", last with
    | some t, some l => some (t - l)
    | _, _ => none

lemma RainInv_congr (last : Option ℚ) (p p' : Packet)
    (hr : dict_get p' "rain" = dict_get p "rain")
    (ht : dict_get p' "rain_total" = dict_get p "rain_total")
    (hInv : RainInv last p) : RainInv last p' := by
  unfold RainInv at *
  rw [hr, ht]
  exact hInv

lemma RainInv_rain_none (p : Packet) (hInv : RainInv none p) :
    dict_get p "rain" = none := by
  unfold RainInv at hInv
  cases hx : dict_get p "rain_total" <;> rw [hx] at hInv <;> exact hInv

lemma RainInv_of_rain_none (p : Packet) (h : dict_get p "rain" = none) :
    RainInv none p := by
  unfold RainInv
  cases hx : dict_get p "rain_total" <;> exact h

/-- One sensor-loop iteration preserves the rain-delta relation. -/
lemma procSensor_rainInv (last : Option ℚ) (st st' : LoopSt)
    (g : SensorGroup) (h : procSensor last st g = .ok st')
    (hInv : RainInv last st.packet) : RainInv last st'.packet := by
  unfold procSensor at h
  split at h
  · -- Indoor
    cases hgl : getList g with
    | error e => rw [hgl, ebind_err] at h; cases h
    | ok its =>
      rw [hgl, ebind_ok] at h
      cases hp : procIndoor st.packet its with
      | error e => rw [hp, ebind_err] at h; cases h
      | ok p =>
        rw [hp, ebind_ok] at h
        cases h
        exact RainInv_congr last st.packet p
          (procIndoor_get st.packet p its "rain" (by decide) (by decide) hp)
          (procIndoor_get st.packet p its "rain_total" (by decide)
            (by decide) hp) hInv
  all_goals split at h
  · -- Outdoor
    cases hgl : getList g with
    | error e => rw [hgl, ebind_err] at h; cases h
    | ok its =>
      rw [hgl, ebind_ok] at h
      cases hp : procOutdoor st.packet its with
      | error e => rw [hp, ebind_err] at h; cases h
      | ok p =>
        rw [hp, ebind_ok] at h
        cases h
        exact RainInv_congr last st.packet p
          (procOutdoor_get st.packet p its "rain" (by decide) (by decide) hp)
          (procOutdoor_get st.packet p its "rain_total" (by decide)
            (by decide) hp) hInv
  all_goals split at h
  · -- Pressure
    cases hgl : getList g with
    | error e => rw [hgl, ebind_err] at h; cases h
    | ok its =>
      rw [hgl, ebind_ok] at h
      cases hp : procPressure st.packet its with
      | error e => rw [hp, ebind_err] at h; cases h
      | ok p =>
        rw [hp, ebind_ok] at h
        cases h
        exact RainInv_congr last st.packet p
          (procPressure_get st.packet p its "rain" (by decide) hp)
          (procPressure_get st.packet p its "rain_total" (by decide) hp) hInv
  all_goals split at h
  · -- Wind Speed
    cases hgl : getList g with
    | error e => rw [hgl, ebind_err] at h; cases h
    | ok its =>
      rw [hgl, ebind_ok] at h
      cases hp : procWind st.packet its with
      | error e => rw [hp, ebind_err] at h; cases h
      | ok p =>
        rw [hp, ebind_ok] at h
        cases h
        exact RainInv_congr last st.packet p
          (procWind_get st.packet p its "rain" (by decide) (by decide)
            (by decide) hp)
          (procWind_get st.packet p its "rain_total" (by decide) (by decide)
            (by decide) hp) hInv
  all_goals split at h
  · -- Rainfall
    cases hgl : getList g with
    | error e => rw [hgl, ebind_err] at h; cases h
    | ok its =>
      rw [hgl, ebind_ok] at h
      cases hp : procRain st.packet none its with
      | error e => rw [hp, ebind_err] at h; cases h
      | ok pr =>
        obtain ⟨q, rt⟩ := pr
        rw [hp, ebind_ok] at h
        cases h
        obtain ⟨hr, hd⟩ := procRain_char st.packet q rt its hp
        cases rt with
        | none =>
          rcases hd with ⟨_, ht⟩ | ⟨t, hte, _⟩
          · exact RainInv_congr last st.packet q hr ht hInv
          · cases hte
        | some t =>
          rcases hd with ⟨hte, _⟩ | ⟨t', hte, htt⟩
          · cases hte
          · injection hte with hte
            subst hte
            cases last with
            | none =>
              exact RainInv_of_rain_none q
                (hr.trans (RainInv_rain_none st.packet hInv))
            | some l =>
              unfold RainInv
              show dict_get (dict_set q "rain" (t - l)) "rain" =
                match dict_get (dict_set q "rain" (t - l)) "rain_total",
                    some l with
                | some u, some w => some (u - w)
                | _, _ => none
              rw [dict_get_set_self q "rain" (t - l),
                dict_get_set_of_ne q "rain" "rain_total" (t - l)
                  (by decide), htt]
  all_goals split at h
  · -- Solar
    cases hsi : st.items with
    | none => rw [hsi] at h; cases h
    | some its =>
      simp only [hsi] at h
      cases hp : procSolar st.packet its with
      | error e => rw [hp, ebind_err] at h; cases h
      | ok p =>
        rw [hp, ebind_ok] at h
        cases h
        exact RainInv_congr last st.packet p
          (procSolar_get st.packet p its "rain" (by decide) (by decide) hp)
          (procSolar_get st.packet p its "rain_total" (by decide)
            (by decide) hp) hInv
  · -- unrecognized title
    cases h
    exact hInv

/-- Successful runs of `data_to_packet` on a real document factor through
the sensor fold followed by the battery step. -/
lemma data_to_packet_ok_elim (d : RawDoc) (lrt : Option ℚ) (now : ℤ)
    (pkt : Packet) (h : data_to_packet (some d) lrt now = .ok pkt) :
    ∃ st, (d.sensor.getD []).foldlM (procSensor lrt)
        ⟨initPacket now, none⟩ = .ok st ∧
      pkt = applyBattery d st.packet := by
  have h' : ((d.sensor.getD []).foldlM (procSensor lrt)
      ⟨initPacket now, none⟩ >>= fun st =>
        Except.ok (applyBattery d st.packet)) = .ok pkt := h
  cases hfold : (d.sensor.getD []).foldlM (procSensor lrt)
      ⟨initPacket now, none⟩ with
  | error e => rw [hfold, ebind_err] at h'; cases h'
  | ok st =>
    rw [hfold, ebind_ok] at h'
    cases h'
    exact ⟨st, rfl, rfl⟩

/-- The battery step writes only the `battery` key. -/
lemma applyBattery_get (d : RawDoc) (p : Packet) (k : String)
    (hk : k ≠ "battery") :
    dict_get (applyBattery d p) k = dict_get p k := by
  unfold applyBattery
  cases batteriesOf d with
  | nil => rfl
  | cons b0 rest =>
    show dict_get (if b0 = "All battery are ok"
      then dict_set p "battery" 0 else p) k = dict_get p k
    by_cases hb : b0 = "All battery are ok"
    · rw [if_pos hb]
      exact dict_get_set_of_ne p "battery" k 0 hk
    · rw [if_neg hb]

/-- The rain-delta relation holds of every packet a successful
`data_to_packet` run produces. -/
lemma data_to_packet_rain (d : RawDoc) (lrt : Option ℚ) (now : ℤ)
    (pkt : Packet) (h : data_to_packet (some d) lrt now = .ok pkt) :
    RainInv lrt pkt := by
  obtain ⟨st, hf, hpk⟩ := data_to_packet_ok_elim d lrt now pkt h
  subst hpk
  have h0 : RainInv lrt (initPacket now) := rfl
  have hInv := foldlM_ok_induct (procSensor lrt)
    (fun s => RainInv lrt s.packet)
    (fun s a s' hs hp => procSensor_rainInv lrt s s' a hs hp)
    (d.sensor.getD []) ⟨initPacket now, none⟩ st hf h0
  exact RainInv_congr lrt st.packet (applyBattery d st.packet)
    (applyBattery_get d st.packet "rain" (by decide))
    (applyBattery_get d st.packet "rain_total" (by decide)) hInv

/-- If the sensor fold fails, `data_to_packet` fails with the same
exception. -/
lemma data_to_packet_error_elim (d : RawDoc) (lrt : Option ℚ) (now : ℤ)
    (hf : ∃ e, (d.sensor.getD []).foldlM (procSensor lrt)
        ⟨initPacket now, none⟩ = .error e) :
    ∃ e, data_to_packet (some d) lrt now = .error e := by
  obtain ⟨e, he⟩ := hf
  refine ⟨e, ?_⟩
  show ((d.sensor.getD []).foldlM (procSensor lrt)
      ⟨initPacket now, none⟩ >>= fun st =>
        Except.ok (applyBattery d st.packet)) = .error e
  rw [he, ebind_err]

/-- An exception from `data_to_packet` propagates out of the loop body of
`genLoopPackets`. -/
lemma genLoopPackets_body_error (data : Option RawDoc) (lrt : Option ℚ)
    (now : ℤ) (e : PyErr) (h : data_to_packet data lrt now = .error e) :
    genLoopPackets_body data lrt now = .error e := by
  unfold genLoopPackets_body
  rw [h, ebind_err]

/-! ## Decidable document predicates used as hypotheses -/

/-- An entry labeled `Temperature` whose reading string `float()` rejects. -/
def badTempItem (it : Item) : Bool :=
  it.get? 0 = some "Temperature" &&
    (match it.get? 1 with
     | some s => (parseFloat s).isNone
     | none => false)

/-- The document has an `Indoor` group one of whose entries is a
`Temperature` with a non-numeric reading string. -/
def hasBadIndoorTemp (d : RawDoc) : Bool :=
  (d.sensor.getD []).any fun g =>
    g.title = some "Indoor" &&
      (match g.list with
       | some its => its.any badTempItem
       | none => false)

/-- The document has an `Indoor` group without a `list` key. -/
def hasListlessIndoor (d : RawDoc) : Bool :=
  (d.sensor.getD []).any fun g =>
    g.title = some "Indoor" && g.list.isNone

lemma indoorItem_error_of_bad (it : Item) (hbad : badTempItem it = true) :
    ∀ p, indoorItem p it = .error .valueError := by
  intro p
  unfold badTempItem at hbad
  rw [Bool.and_eq_true] at hbad
  obtain ⟨h0, h1⟩ := hbad
  rw [decide_eq_true_eq] at h0
  cases hi1 : it.get? 1 with
  | none => rw [hi1] at h1; cases h1
  | some s =>
    rw [hi1] at h1
    rw [Option.isNone_iff_eq_none] at h1
    unfold indoorItem
    rw [show pyIndex it 0 = .ok "Temperature" by rw [pyIndex, h0], ebind_ok,
      if_pos rfl,
      show pyIndex it 1 = .ok s by rw [pyIndex, hi1], ebind_ok,
      show pyFloat s = .error .valueError by rw [pyFloat, h1], ebind_err]

lemma procIndoor_error_of_bad (its : List Item)
    (hbad : its.any badTempItem = true) :
    ∀ p, ∃ e, procIndoor p its = .error e := by
  obtain ⟨it, hmem, hit⟩ := List.any_eq_true.mp hbad
  intro p
  exact foldlM_error_of_mem indoorItem it
    (fun s => ⟨.valueError, indoorItem_error_of_bad it hit s⟩) its hmem p

lemma procSensor_error_of_badTemp (last : Option ℚ) (g : SensorGroup)
    (htitle : g.title = some "Indoor") (its : List Item)
    (hlist : g.list = some its) (hbad : its.any badTempItem = true) :
    ∀ st, ∃ e, procSensor last st g = .error e := by
  intro st
  obtain ⟨e, he⟩ := procIndoor_error_of_bad its hbad st.packet
  refine ⟨e, ?_⟩
  unfold procSensor
  rw [if_pos htitle, show getList g = .ok its by rw [getList, hlist],
    ebind_ok, he, ebind_err]

lemma procSensor_error_of_listless (last : Option ℚ) (g : SensorGroup)
    (htitle : g.title = some "Indoor") (hlist : g.list = none) :
    ∀ st, ∃ e, procSensor last st g = .error e := by
  intro st
  refine ⟨.typeError, ?_⟩
  unfold procSensor
  rw [if_pos htitle, show getList g = .error .typeError by
    rw [getList, hlist], ebind_err]

/-! ## Concrete documents used by the claims -/

/-- An Indoor group whose Temperature reading is not numeric (and whose
Humidity reading is perfectly fine). -/
def c1doc : RawDoc :=
  ⟨some [⟨some "Indoor", some [
    ["Temperature", "abc", "°F"],
    ["Humidity", "50", "%"]]⟩], none⟩

/-- A Wind Speed group reporting a Gust of 1.6. -/
def c4doc : RawDoc :=
  ⟨some [⟨some "Wind Speed", some [["Gust", "1.6", "mph"]]⟩], none⟩

/-- An Indoor group (with an entry the Indoor branch ignores) followed by a
Solar group whose own readings are 0.0 and 4.0. -/
def c5doc : RawDoc :=
  ⟨some [
    ⟨some "Indoor", some [["Light", "7.7", "x"]]⟩,
    ⟨some "Solar", some [["Light", "0.0", "w/m²"], ["UVI", "4.0", ""]]⟩],
   none⟩

/-- A document whose first (and only) group is Solar. -/
def c5solarFirstDoc : RawDoc :=
  ⟨some [⟨some "Solar", some [["Light", "1.0", "w/m²"]]⟩], none⟩

/-- A Rainfall group reporting a cumulative Total of 16.37. -/
def c6doc : RawDoc :=
  ⟨some [⟨some "Rainfall", some [["Total", "16.37", "inch", "48"]]⟩], none⟩

/-- An Indoor group without a `list` key. -/
def c9doc : RawDoc := ⟨some [⟨some "Indoor", none⟩], none⟩

/-- A Rainfall group reporting a cumulative Total of 1.0 (as after a
station counter reset). -/
def c10doc : RawDoc :=
  ⟨some [⟨some "Rainfall", some [["Total", "1.0", "inch"]]⟩], none⟩

/-- A document with no sensor groups and an all-OK battery status. -/
def batDoc : RawDoc := ⟨none, some ⟨some ["All battery are ok"]⟩⟩

/-! ## The claims -/

/-- C1, counterexample to the claim as stated: on a document whose Indoor
Temperature reading is the non-numeric string "abc" (and whose Humidity
reading "50" is valid), the loop body does not drop just the bad field and
keep the rest — `float('abc')` raises ValueError, the whole record is
aborted, and the exception propagates out of the `genLoopPackets` body
(which has no handler), so the polling loop is terminated. -/
theorem C1_counterexample :
    genLoopPackets_body (some c1doc) none 0 = .error .valueError := by
  decide

/-- C1 (amended): for every document with an `Indoor` group containing a
`Temperature` entry whose reading string is not parseable as a number,
the polling-loop body raises: `data_to_packet` propagates the ValueError
from `float(...)`, no record is produced, and — there being no exception
handler in `genLoopPackets` — the generator (the polling loop) dies. -/
theorem C1_parse_failure_aborts_loop (d : RawDoc) (lrt : Option ℚ)
    (now : ℤ) (h : hasBadIndoorTemp d = true) :
    ∃ e, genLoopPackets_body (some d) lrt now = .error e := by
  obtain ⟨g, hg, hcond⟩ := List.any_eq_true.mp h
  rw [Bool.and_eq_true] at hcond
  obtain ⟨ht, hl⟩ := hcond
  rw [decide_eq_true_eq] at ht
  cases hgl : g.list with
  | none => rw [hgl] at hl; cases hl
  | some its =>
    rw [hgl] at hl
    obtain ⟨e, he⟩ := data_to_packet_error_elim d lrt now
      (foldlM_error_of_mem (procSensor lrt) g
        (procSensor_error_of_badTemp lrt g ht its hgl hl)
        (d.sensor.getD []) hg ⟨initPacket now, none⟩)
    exact ⟨e, genLoopPackets_body_error (some d) lrt now e he⟩

theorem C1_parse_failure_aborts_loop_witness :
    hasBadIndoorTemp c1doc = true ∧
      ∃ e, genLoopPackets_body (some c1doc) none 0 = .error e :=
  ⟨by decide, C1_parse_failure_aborts_loop c1doc none 0 (by decide)⟩

/-- C2, counterexample to the claim as stated: when the first attempt
retrieves a body that is not valid JSON, `get_data` does not fold it into
the no-data result — the `json.loads` decode error is not in the caught
exception tuple, so the call raises instead of returning `None`. -/
theorem C2_counterexample :
    (get_data (fun _ => .response .badJson)).1 = .raised ∧
      (get_data (fun _ => .response .badJson)).1 ≠ .returnedNone := by
  decide

/-- C2 (amended): a malformed JSON body is *not* treated like a transport
failure: on the first attempt whose HTTP retrieval succeeds but whose body
is not valid JSON (all earlier attempts being transport failures),
`get_data` propagates the JSON decode exception to the caller instead of
retrying or returning the no-data `None`. -/
theorem C2_malformed_json_raises (att : ℕ → Attempt) (i : ℕ)
    (hi : i < max_tries) (hpre : ∀ j, j < i → att j = .fetchError)
    (hbad : att i = .response .badJson) :
    (get_data att).1 = .raised := by
  have hr : List.range max_tries = [0, 1, 2] := rfl
  unfold get_data
  rw [hr]
  rw [max_tries] at hi
  interval_cases i
  · simp [get_data_run, hbad]
  · simp [get_data_run, hpre 0 (by norm_num), hbad]
  · simp [get_data_run, hpre 0 (by norm_num), hpre 1 (by norm_num), hbad]

theorem C2_malformed_json_raises_witness :
    (get_data (fun _ => Attempt.response .badJson)).1 = .raised :=
  C2_malformed_json_raises (fun _ => .response .badJson) 0 (by decide)
    (fun j hj => absurd hj (Nat.not_lt_zero j)) rfl

/-- C3, counterexample to the claim as stated: on the bound-cluster
docstring example with `last_rain_total = None`, the record contains no
`windGust`, `luminosity` or `UV` key (the claim promises all three), and
it does contain `rain_hour` (the claim's "exactly" list omits it). -/
theorem C3_counterexample :
    dict_get (boundPacket 0) "windGust" = none ∧
      dict_get (boundPacket 0) "luminosity" = none ∧
      dict_get (boundPacket 0) "UV" = none ∧
      dict_get (boundPacket 0) "rain_hour" = some 0.02 := by
  decide

/-- C3 (amended): feeding the bound-cluster docstring example to
`data_to_packet` with `last_rain_total = None` succeeds and yields exactly
`dateTime`, `usUnits`, `inTemp=57.4`, `inHumidity=81`, `outTemp=54.7`,
`outHumidity=94`, `pressure=29.76`, `windSpeed=1.1`, `windGuest=1.6` (the
gust lands under the misspelled key, not `windGust`), `windDir=280.0`,
`rain_rate=0.07`, `rain_hour=0.02`, `rain_day=0.02`, `rain_week=0.53`,
`rain_month=0.56`, `rain_year=0.56`, `rain_total=0.56` and `battery=0` —
with no `rain` key, and no `luminosity` or `UV` keys either, because the
Solar branch iterates the stale `items` of the Rainfall group. -/
theorem C3_bound_cluster_eval :
    data_to_packet (some boundClusterDoc) none 0 = .ok (boundPacket 0) ∧
      boundPacket 0 =
        [("dateTime", 0), ("usUnits", 1), ("inTemp", 57.4),
         ("inHumidity", 81), ("outTemp", 54.7), ("outHumidity", 94),
         ("pressure", 29.76), ("windSpeed", 1.1), ("windGuest", 1.6),
         ("windDir", 280), ("rain_rate", 0.07), ("rain_hour", 0.02),
         ("rain_day", 0.02), ("rain_week", 0.53), ("rain_month", 0.56),
         ("rain_year", 0.56), ("rain_total", 0.56), ("battery", 0)] ∧
      dict_get (boundPacket 0) "rain" = none ∧
      dict_get (boundPacket 0) "windGust" = none ∧
      dict_get (boundPacket 0) "luminosity" = none ∧
      dict_get (boundPacket 0) "UV" = none := by
  decide

/-- C4: the claim is right about the intent and the code misspells the
key: a Wind Speed group with a Gust entry of 1.6 produces a record whose
gust value sits under `windGuest`, while the claimed `windGust` key is
absent. -/
theorem C4_gust_key_misspelled :
    data_to_packet (some c4doc) none 0 =
        .ok (packetOf (data_to_packet (some c4doc) none 0)) ∧
      dict_get (packetOf (data_to_packet (some c4doc) none 0))
          "windGuest" = some 1.6 ∧
      dict_get (packetOf (data_to_packet (some c4doc) none 0))
          "windGust" = none := by
  decide

/-- C5: the claim is right about the intent and the code forgets
`items = sensor.get('list')` in the Solar branch: with an Indoor group
before it, the Solar branch reads the *Indoor* group's entries (emitting
`luminosity = 7.7` from them and no `UV`, although the Solar group itself
says Light 0.0 and UVI 4.0); with Solar as the first group, the read of
the never-assigned local `items` raises UnboundLocalError. -/
theorem C5_solar_uses_stale_items :
    dict_get (packetOf (data_to_packet (some c5doc) none 0))
        "luminosity" = some 7.7 ∧
      dict_get (packetOf (data_to_packet (some c5doc) none 0)) "UV" =
        none ∧
      data_to_packet (some c5solarFirstDoc) none 0 =
        .error .unboundLocal := by
  decide

/-- C6: for every document, if a successful translation reports a
cumulative `rain_total` of `t` and `last_rain_total` is non-null `l`, the
record carries `rain = t - l`; with a null `last_rain_total` (or no
reported total) the `rain` key is absent. -/
theorem C6_rain_delta (d : RawDoc) (lrt : Option ℚ) (now : ℤ)
    (pkt : Packet) (h : data_to_packet (some d) lrt now = .ok pkt) :
    (∀ t l, dict_get pkt "rain_total" = some t → lrt = some l →
      dict_get pkt "rain" = some (t - l)) ∧
    (lrt = none → dict_get pkt "rain" = none) ∧
    (dict_get pkt "rain_total" = none → dict_get pkt "rain" = none) := by
  have hInv := data_to_packet_rain d lrt now pkt h
  unfold RainInv at hInv
  refine ⟨?_, ?_, ?_⟩
  · intro t l ht hl
    rw [ht, hl] at hInv
    exact hInv
  · intro hl
    rw [hl] at hInv
    cases hx : dict_get pkt "rain_total" <;> rw [hx] at hInv <;>
      exact hInv
  · intro ht
    rw [ht] at hInv
    exact hInv

theorem C6_rain_delta_witness :
    dict_get (packetOf (data_to_packet (some c6doc) (some 10.65) 0))
        "rain" = some 5.72 ∧
      dict_get (packetOf (data_to_packet (some c6doc) none 0)) "rain" =
        none := by
  have h1 := (C6_rain_delta c6doc (some 10.65) 0
    (packetOf (data_to_packet (some c6doc) (some 10.65) 0))
    (by decide)).1 16.37 10.65 (by decide) rfl
  have h2 := (C6_rain_delta c6doc none 0
    (packetOf (data_to_packet (some c6doc) none 0)) (by decide)).2.1 rfl
  rw [h1, h2]
  constructor
  · decide
  · rfl

/-- C7: when all three fetch attempts fail with transport errors,
`get_data` does return the failure signal without raising, and logs the
per-attempt failure three times — but the "failed to get data after N
attempts" message is never logged (the claim says exactly once): the
`else` is attached to a `try` whose body always returns or raises, so
that branch is dead code. -/
theorem C7_exhausted_message_never_logged :
    get_data (fun _ => .fetchError) =
        (.returnedNone,
         [.attemptFailed 1 3, .attemptFailed 2 3, .attemptFailed 3 3]) ∧
      LogMsg.exhausted 3 ∉ (get_data (fun _ => .fetchError)).2 := by
  decide

/-- C8: for every document whose translation succeeds, the record has
`battery = 0` exactly when the battery status list is present and its
first entry is the sentinel string "All battery are ok"; in every other
case (different first entry, empty or absent list) there is no `battery`
key, and a nonzero battery value is never emitted. -/
theorem C8_battery_rule (d : RawDoc) (lrt : Option ℚ) (now : ℤ)
    (pkt : Packet) (h : data_to_packet (some d) lrt now = .ok pkt) :
    dict_get pkt "battery" =
      if (batteriesOf d).head? = some "All battery are ok" then some 0
      else none := by
  obtain ⟨st, hf, hpk⟩ := data_to_packet_ok_elim d lrt now pkt h
  subst hpk
  have hb : dict_get st.packet "battery" = none :=
    foldlM_ok_induct (procSensor lrt)
      (fun s => dict_get s.packet "battery" = none)
      (fun s a s' hs hp =>
        (procSensor_get lrt s s' a "battery" (by decide) hs).trans hp)
      (d.sensor.getD []) ⟨initPacket now, none⟩ st hf rfl
  cases hbs : batteriesOf d with
  | nil =>
    have h1 : applyBattery d st.packet = st.packet := by
      unfold applyBattery
      rw [hbs]
    rw [h1]
    simpa using hb
  | cons b0 rest =>
    have h1 : applyBattery d st.packet =
        if b0 = "All battery are ok" then dict_set st.packet "battery" 0
        else st.packet := by
      unfold applyBattery
      rw [hbs]
    rw [h1]
    by_cases hsent : b0 = "All battery are ok"
    · rw [if_pos hsent]
      simp [hsent, dict_get_set_self]
    · rw [if_neg hsent]
      simpa [hsent] using hb

theorem C8_battery_rule_witness :
    dict_get (packetOf (data_to_packet (some batDoc) none 0)) "battery" =
      some 0 := by
  have h := C8_battery_rule batDoc none 0
    (packetOf (data_to_packet (some batDoc) none 0)) (by decide)
  rw [h]
  decide

/-- C9: a recognized group title with a missing `list` key is not skipped
but fatal — for every document with an `Indoor` group lacking a `list`,
`data_to_packet` raises (the iteration over `None` is a TypeError, though
an earlier bad group may raise a different exception first). -/
theorem C9_listless_group_raises (d : RawDoc) (lrt : Option ℚ) (now : ℤ)
    (h : hasListlessIndoor d = true) :
    ∃ e, data_to_packet (some d) lrt now = .error e := by
  obtain ⟨g, hg, hcond⟩ := List.any_eq_true.mp h
  rw [Bool.and_eq_true] at hcond
  obtain ⟨ht, hl⟩ := hcond
  rw [decide_eq_true_eq] at ht
  rw [Option.isNone_iff_eq_none] at hl
  exact data_to_packet_error_elim d lrt now
    (foldlM_error_of_mem (procSensor lrt) g
      (procSensor_error_of_listless lrt g ht hl)
      (d.sensor.getD []) hg ⟨initPacket now, none⟩)

theorem C9_listless_group_raises_witness :
    hasListlessIndoor c9doc = true ∧
      ∃ e, data_to_packet (some c9doc) none 0 = .error e :=
  ⟨by decide, C9_listless_group_raises c9doc none 0 (by decide)⟩

/-- C10: the rain delta is unclamped — whenever a successful translation
reports a cumulative total `t` smaller than the non-null
`last_rain_total` `l` (as after a station counter reset), the record
carries the negative value `rain = t - l` rather than omitting it or
flooring it at zero. -/
theorem C10_negative_rain_delta (d : RawDoc) (l t : ℚ) (now : ℤ)
    (pkt : Packet) (h : data_to_packet (some d) (some l) now = .ok pkt)
    (ht : dict_get pkt "rain_total" = some t) (hlt : t < l) :
    dict_get pkt "rain" = some (t - l) ∧ t - l < 0 := by
  have hInv := data_to_packet_rain d (some l) now pkt h
  unfold RainInv at hInv
  rw [ht] at hInv
  exact ⟨hInv, sub_neg.mpr hlt⟩

theorem C10_negative_rain_delta_witness :
    dict_get (packetOf (data_to_packet (some c10doc) (some 5) 0)) "rain" =
        some ((1 : ℚ) - 5) ∧ ((1 : ℚ) - 5) < 0 :=
  C10_negative_rain_delta c10doc 5 1 0
    (packetOf (data_to_packet (some c10doc) (some 5) 0))
    (by decide) (by decide) (by norm_num)

end L7

